import Mathlib

/-!
Shallow embedding of the subscription and payment reconciliation engine of
the bot (source under src/bot).  Times are modelled as integer seconds,
calendar dates as integer day numbers, and monetary amounts as exact
rationals (the source computes on Decimal / Numeric columns).  The
database session is modelled by explicit lists of rows; SQLAlchemy
scalar_one_or_none is modelled by an Except value that errors when the
query yields more than one row, exactly as the library raises
MultipleResultsFound.
-/

set_option allowUnsafeReducibility true in
attribute [semireducible] Rat.mul Rat.add Rat.sub Rat.inv Rat.div Rat.neg

namespace Psy

/-- Payment.status column (src/bot/models/payment.py): one of
pending, awaiting_confirmation, completed, failed, cancelled. -/
inductive PaymentStatus where
  | pending
  | awaitingConfirmation
  | completed
  | failed
  | cancelled
deriving DecidableEq, Repr

/-- Payment row (src/bot/models/payment.py).  createdAt is in seconds. -/
structure Payment where
  id : Nat
  userId : Int
  amountUsd : ℚ
  currency : String
  status : PaymentStatus
  planType : String
  txHash : Option String
  note : Option String
  createdAt : Int
  confirmedAt : Option Int
  confirmedBy : Option Int
deriving DecidableEq, Repr

/-- Subscription row (src/bot/models/subscription.py). -/
structure Subscription where
  userId : Int
  planType : String
  priceUsd : ℚ
  startedAt : Int
  expiresAt : Int
  isActive : Bool
  paymentId : Option String
  reminder3DaysSent : Bool
  reminder1DaySent : Bool
  reminderExpiredSent : Bool
  autoRenew : Bool
  autoRenewInvoiceSent : Bool
  cancelledAt : Option Int
  cancelReason : Option String
  createdAt : Int
deriving DecidableEq, Repr

/-- One subscription plan entry of SUBSCRIPTION_PLANS
(src/bot/services/subscription_service.py, lines 17-36). -/
structure Plan where
  priceUsd : ℚ
  durationDays : Nat
deriving DecidableEq, Repr

/-- SUBSCRIPTION_PLANS: monthly at 20.00 USD for 30 days and yearly at
168.00 USD for 365 days; any other key is absent. -/
def SUBSCRIPTION_PLANS (planType : String) : Option Plan :=
  if planType = "monthly" then some ⟨20, 30⟩
  else if planType = "yearly" then some ⟨168, 365⟩
  else none

/-- Seconds in one day, the unit of timedelta(days=n). -/
def secondsPerDay : Int := 86400

/-- SQLAlchemy scalar_one_or_none over the fetched row list: none for no
row, the row for exactly one, and MultipleResultsFound (an error) for
more than one. -/
def scalarOneOrNone {α : Type} (rows : List α) : Except String (Option α) :=
  match rows with
  | [] => Except.ok none
  | [a] => Except.ok (some a)
  | _ => Except.error "MultipleResultsFound"

/-- Ordering used by ORDER BY created_at ASC on payments. -/
def createdAsc (p q : Payment) : Prop := p.createdAt ≤ q.createdAt

instance : DecidableRel createdAsc := fun p q => Int.decLe p.createdAt q.createdAt

instance : IsTotal Payment createdAsc := ⟨fun p q => Int.le_total p.createdAt q.createdAt⟩

instance : IsTrans Payment createdAsc := ⟨fun _ _ _ h h2 => le_trans h h2⟩

/-- Ordering used by ORDER BY created_at DESC on payments. -/
def createdDesc (p q : Payment) : Prop := q.createdAt ≤ p.createdAt

instance : DecidableRel createdDesc := fun p q => Int.decLe q.createdAt p.createdAt

/-- PaymentService.get_pending_payments (subscription_service.py 206-214):
all payments in status awaiting_confirmation, ordered by created_at
ascending. -/
def get_pending_payments (db : List Payment) : List Payment :=
  List.insertionSort createdAsc
    (db.filter fun p => p.status = PaymentStatus.awaitingConfirmation)

/-- PaymentService.get_user_pending_payment (subscription_service.py
216-229): the awaiting_confirmation payments of one user ordered by
created_at descending, collapsed by scalar_one_or_none. -/
def get_user_pending_payment (db : List Payment) (userId : Int) :
    Except String (Option Payment) :=
  scalarOneOrNone
    (List.insertionSort createdDesc
      (db.filter fun p =>
        p.userId = userId ∧ p.status = PaymentStatus.awaitingConfirmation))

/-- Fresh autoincrement id for a payment row. -/
def nextPaymentId (db : List Payment) : Nat :=
  (db.map Payment.id).foldr max 0 + 1

/-- PaymentService.create_pending_payment (subscription_service.py
181-204): a ValueError on an unknown plan, otherwise a new row in status
awaiting_confirmation at the plan price, appended to the table. -/
def create_pending_payment (db : List Payment) (userId : Int)
    (planType : String) (currency : String) (now : Int) :
    Except String (List Payment × Payment) :=
  match SUBSCRIPTION_PLANS planType with
  | none => Except.error ("Unknown plan type: " ++ planType)
  | some plan =>
      let payment : Payment :=
        { id := nextPaymentId db
          userId := userId
          amountUsd := plan.priceUsd
          currency := currency
          status := PaymentStatus.awaitingConfirmation
          planType := planType
          txHash := none
          note := none
          createdAt := now
          confirmedAt := none
          confirmedBy := none }
      Except.ok (db ++ [payment], payment)

/-- The deactivation loop of create_subscription
(subscription_service.py 98-109): every row of the user that is active
gets its active flag cleared. -/
def deactivate_user_subs (subs : List Subscription) (userId : Int) :
    List Subscription :=
  subs.map fun s =>
    if s.userId = userId ∧ s.isActive then { s with isActive := false } else s

/-- SubscriptionService.create_subscription (subscription_service.py
86-125): a ValueError on an unknown plan; otherwise every active row of
the user is deactivated and one fresh row is appended, active, with
start now, expiry now plus the plan duration, auto_renew true by column
default and every reminder flag false by column default. -/
def create_subscription (subs : List Subscription) (userId : Int)
    (planType : String) (paymentId : Option String) (now : Int) :
    Except String (List Subscription × Subscription) :=
  match SUBSCRIPTION_PLANS planType with
  | none => Except.error ("Unknown plan type: " ++ planType)
  | some plan =>
      let deactivated := deactivate_user_subs subs userId
      let sub : Subscription :=
        { userId := userId
          planType := planType
          priceUsd := plan.priceUsd
          startedAt := now
          expiresAt := now + plan.durationDays * secondsPerDay
          isActive := true
          paymentId := paymentId
          reminder3DaysSent := false
          reminder1DaySent := false
          reminderExpiredSent := false
          autoRenew := true
          autoRenewInvoiceSent := false
          cancelledAt := none
          cancelReason := none
          createdAt := now }
      Except.ok (deactivated ++ [sub], sub)

/-- PaymentService.cancel_payment (subscription_service.py 265-287):
looks the payment up by id, errors only when it does not exist, and
otherwise sets status cancelled, stamps the admin and overwrites the
note when a reason is given; the current status is not inspected. -/
def cancel_payment (db : List Payment) (paymentId : Nat) (adminId : Int)
    (reason : Option String) : Except String (List Payment × Payment) :=
  match db.find? fun p => p.id = paymentId with
  | none => Except.error ("Payment not found: " ++ toString paymentId)
  | some p =>
      let p2 : Payment :=
        { p with
          status := PaymentStatus.cancelled
          confirmedBy := some adminId
          note := match reason with | some r => some r | none => p.note }
      Except.ok (db.map (fun q => if q.id = paymentId then p2 else q), p2)

/-- SubscriptionService.get_active_subscription (subscription_service.py
42-56): the rows of the user that are active with expiry strictly in the
future, ordered by expiry descending, collapsed by scalar_one_or_none. -/
def get_active_subscription (subs : List Subscription) (userId : Int)
    (now : Int) : Except String (Option Subscription) :=
  scalarOneOrNone
    (List.insertionSort (fun s t => t.expiresAt ≤ s.expiresAt)
      (subs.filter fun s =>
        s.userId = userId ∧ s.isActive = true ∧ now < s.expiresAt))

/-- SubscriptionService.has_active_subscription (subscription_service.py
58-62). -/
def has_active_subscription (subs : List Subscription) (userId : Int)
    (now : Int) : Except String Bool :=
  (get_active_subscription subs userId now).map Option.isSome

/-- SubscriptionService.is_in_grace_period (subscription_service.py
64-84): true when some active row of the user has expiry at or before
now but strictly after now minus grace_days days. -/
def is_in_grace_period (subs : List Subscription) (userId : Int)
    (now : Int) (graceDays : Nat) : Except String Bool :=
  let graceThreshold := now - graceDays * secondsPerDay
  (scalarOneOrNone
    (subs.filter fun s =>
      s.userId = userId ∧ s.isActive = true ∧
      s.expiresAt ≤ now ∧ graceThreshold < s.expiresAt)).map Option.isSome

/-- Subscription.is_expired (subscription.py 50-53): now is strictly
past the expiry. -/
def is_expired (now expiresAt : Int) : Bool := expiresAt < now

/-- Subscription.days_remaining (subscription.py 55-61): 0 when expired,
otherwise max(0, (expires_at - now).days) with timedelta days being the
floor of the second count divided by 86400 (non-negative here). -/
def days_remaining (now expiresAt : Int) : Nat :=
  if is_expired now expiresAt then 0
  else max 0 ((expiresAt - now).toNat / 86400)

/-! The payment monitor (src/bot/services/payment_monitor.py).
Transactions observed on the wallet are pairs of a hash and an inbound
amount in nano units; _nano_to_usd divides by 1000000. -/

/-- PaymentMonitor._match_payment (payment_monitor.py 150-165): the
first payment of the given list whose expected amount is within the one
percent tolerance band around the observed amount. -/
def match_payment (pendingPayments : List Payment) (amountUsd : ℚ) :
    Option Payment :=
  pendingPayments.find? fun payment =>
    decide (payment.amountUsd * (1 - 1/100) ≤ amountUsd ∧
            amountUsd ≤ payment.amountUsd * (1 + 1/100))

/-- State shared by one PaymentMonitor sweep: the payments table, the
subscriptions table and the in-process cache of processed transaction
hashes. -/
structure MonitorState where
  payments : List Payment
  subs : List Subscription
  processed : List String
deriving DecidableEq, Repr

/-- PaymentMonitor._process_payment (payment_monitor.py 167-238): marks
the matched payment completed with the hash recorded, then calls
create_subscription for the payer with the payment id as reference.
Notification sending is external and dropped here. -/
def process_payment (st : MonitorState) (payment : Payment)
    (txHash : String) (now : Int) : Except String MonitorState :=
  let payments2 := st.payments.map fun q =>
    if q.id = payment.id then
      { q with
        status := PaymentStatus.completed
        txHash := some txHash
        confirmedAt := some now
        note := some "Auto-confirmed via blockchain" }
    else q
  match create_subscription st.subs payment.userId payment.planType
      (some (toString payment.id)) now with
  | Except.error e => Except.error e
  | Except.ok (subs2, _) =>
      Except.ok { payments := payments2, subs := subs2, processed := st.processed }

/-- The transaction loop of PaymentMonitor.check_transactions
(payment_monitor.py 74-94): already-processed hashes and non-positive
amounts are skipped, the amount is converted from nano units, matched
against the pending list fetched once before the loop, and a match is
processed and its hash cached. -/
def check_transactions_loop (pendingPayments : List Payment) (now : Int) :
    List (String × Int) → MonitorState → Except String MonitorState
  | [], st => Except.ok st
  | (txHash, amountNano) :: rest, st =>
      if st.processed.contains txHash then
        check_transactions_loop pendingPayments now rest st
      else if amountNano ≤ 0 then
        check_transactions_loop pendingPayments now rest st
      else
        let amountUsd : ℚ := (amountNano : ℚ) / 1000000
        match match_payment pendingPayments amountUsd with
        | none => check_transactions_loop pendingPayments now rest st
        | some payment =>
            match process_payment st payment txHash now with
            | Except.error e => Except.error e
            | Except.ok st2 =>
                check_transactions_loop pendingPayments now rest
                  { st2 with processed := txHash :: st2.processed }

/-- PaymentMonitor.check_transactions (payment_monitor.py 57-97): the
pending payments are fetched once, the loop runs over the fetched
transactions, and any exception makes the whole sweep roll back and be
logged. -/
def check_transactions (st : MonitorState) (txs : List (String × Int))
    (now : Int) : MonitorState :=
  let pendingPayments := get_pending_payments st.payments
  if pendingPayments.isEmpty then st
  else
    match check_transactions_loop pendingPayments now txs st with
    | Except.ok st2 => st2
    | Except.error _ => st

/-! Free-tier counter (src/bot/services/user_service.py) and the
entitlement gate of handle_message (src/bot/handlers/chat.py 99-111).
Dates are day numbers; the stored reset timestamp is reduced to its
date. -/

/-- The free-message counter fields of a User row
(src/bot/models/user.py 25-26). -/
structure UserRec where
  freeMessagesToday : Nat
  freeMessagesResetDate : Option Nat
deriving DecidableEq, Repr

/-- The staleness test shared by both counter functions: no reset date
recorded yet, or the recorded date is strictly before today. -/
def counterStale (u : UserRec) (today : Nat) : Bool :=
  match u.freeMessagesResetDate with
  | none => true
  | some d => d < today

/-- UserService.increment_free_messages (user_service.py 72-86): reset
the counter on a new day, then add one. -/
def increment_free_messages (u : UserRec) (today : Nat) : UserRec :=
  let u2 := if counterStale u today then
      { u with freeMessagesToday := 0, freeMessagesResetDate := some today }
    else u
  { u2 with freeMessagesToday := u2.freeMessagesToday + 1 }

/-- UserService.get_free_messages_remaining (user_service.py 88-96):
the full limit on a stale counter, otherwise max(0, limit - counter),
which Nat subtraction computes. -/
def get_free_messages_remaining (u : UserRec) (today : Nat)
    (dailyLimit : Nat) : Nat :=
  if counterStale u today then dailyLimit
  else dailyLimit - u.freeMessagesToday

/-- Outcome of the entitlement gate at the top of handle_message. -/
inductive GateResult where
  | bypass
  | rejected
  | accepted
deriving DecidableEq, Repr

/-- The gate of handle_message (chat.py 100-111): a user with an active
subscription, in grace, or equal to the admin identity skips the counter
entirely; otherwise zero remaining messages rejects the turn, and an
accepted turn increments the counter once. -/
def handle_message_gate (hasSubscription inGrace isAdminUser : Bool)
    (u : UserRec) (today : Nat) (freeLimit : Nat) : GateResult × UserRec :=
  if !hasSubscription ∧ !inGrace ∧ !isAdminUser then
    if get_free_messages_remaining u today freeLimit ≤ 0 then
      (GateResult.rejected, u)
    else
      (GateResult.accepted, increment_free_messages u today)
  else (GateResult.bypass, u)

/-! Conversation memory (src/bot/services/summary_service.py,
src/bot/services/message_service.py and the auto-summary block of
handle_message in src/bot/handlers/chat.py 137-156).  Message lists are
kept in chronological order, as the services return them. -/

/-- One conversation turn as the services pass it around: a role and a
content string. -/
structure ChatMsg where
  role : String
  content : String
deriving DecidableEq, Repr

/-- One ChatSummary row (src/bot/models/chat_summary.py): the cumulative
summary text, the running count of summarized messages and the update
timestamp. -/
structure SummaryRow where
  summary : String
  messagesSummarized : Nat
  updatedAt : Int
deriving DecidableEq, Repr

/-- Summary rows ordered by updated_at descending, the order used by the
limit-1 lookups of SummaryService. -/
def sortSummariesDesc (rows : List SummaryRow) : List SummaryRow :=
  List.insertionSort (fun r s => s.updatedAt ≤ r.updatedAt) rows

/-- SummaryService.get_summary (summary_service.py 58-68): the text of
the most recently updated row, if any. -/
def get_summary (rows : List SummaryRow) : Option String :=
  (sortSummariesDesc rows).head?.map SummaryRow.summary

/-- SummaryService.save_summary (summary_service.py 70-101): update the
most recently updated row in place when one exists, otherwise insert a
fresh row. -/
def save_summary (rows : List SummaryRow) (summaryText : String)
    (messagesCount : Nat) (now : Int) : List SummaryRow :=
  match (sortSummariesDesc rows).head? with
  | some existing =>
      rows.replace existing
        { existing with
          summary := summaryText
          messagesSummarized := existing.messagesSummarized + messagesCount
          updatedAt := now }
  | none => rows ++ [⟨summaryText, messagesCount, now⟩]

/-- The fixed instructional prompt SUMMARY_PROMPT (summary_service.py
18-33); its content is opaque data for the external generator and is
abbreviated to its opening sentence here. -/
def SUMMARY_PROMPT : String :=
  "Ты — помощник психоаналитика. Твоя задача — создать краткое резюме терапевтической сессии."

/-- MERGE_SUMMARY_PROMPT.format(previous_summary, new_messages)
(summary_service.py 35-52), abbreviated to its skeleton around the two
interpolated slots. -/
def mergeSummaryPrompt (previousSummary newMessages : String) : String :=
  "Объедини предыдущее резюме с новой информацией в одно обновлённое резюме.\n\nПредыдущее резюме:\n"
    ++ previousSummary ++ "\n\nНовая сессия (сообщения):\n" ++ newMessages
    ++ "\n\nОбновлённое резюме:"

/-- SummaryService.generate_summary (summary_service.py 103-129):
formats the turns, picks the merge prompt when a previous summary
exists, calls the external generator once and strips the result.  The
generator is a function that may fail. -/
def generate_summary (ai : List ChatMsg → Except String String)
    (messages : List ChatMsg) (previousSummary : Option String) :
    Except String String :=
  let formatted := String.intercalate "\n"
    (messages.map fun m =>
      (if m.role = "user" then "Клиент" else "Терапевт") ++ ": " ++ m.content)
  let prompt := match previousSummary with
    | some prev => mergeSummaryPrompt prev formatted
    | none => SUMMARY_PROMPT ++ "\n\nДиалог:\n" ++ formatted ++ "\n\nРезюме:"
  match ai [⟨"user", prompt⟩] with
  | Except.error e => Except.error e
  | Except.ok s => Except.ok s.trim

/-- SummaryService.summarize_and_clear (summary_service.py 131-164):
fewer than four turns skip the pass; a generator failure is caught and
logged and none is returned with the rows untouched; on success the
merged summary is saved. -/
def summarize_and_clear (ai : List ChatMsg → Except String String)
    (rows : List SummaryRow) (messages : List ChatMsg) (now : Int) :
    List SummaryRow × Option String :=
  if messages.length < 4 then (rows, none)
  else
    match generate_summary ai messages (get_summary rows) with
    | Except.error _ => (rows, none)
    | Except.ok summaryText =>
        (save_summary rows summaryText messages.length now, some summaryText)

/-- Conversation state of one user: the stored turns in chronological
order and the ChatSummary rows. -/
structure ConvState where
  messages : List ChatMsg
  summaries : List SummaryRow
deriving DecidableEq, Repr

/-- The auto-summary block of handle_message (chat.py 137-156): when the
stored count exceeds max_history + 10, the overflow turns (all but the
most recent max_history, chronological, per
MessageService.get_old_messages) are summarized when at least four, and
then MessageService.trim_old_messages deletes everything but the most
recent max_history turns regardless of how the summarization pass
went. -/
def auto_summary_step (ai : List ChatMsg → Except String String)
    (st : ConvState) (maxHistory : Nat) (now : Int) : ConvState :=
  if maxHistory + 10 < st.messages.length then
    let oldMessages := st.messages.take (st.messages.length - maxHistory)
    if !oldMessages.isEmpty ∧ 4 ≤ oldMessages.length then
      let rows2 := (summarize_and_clear ai st.summaries oldMessages now).1
      { messages := st.messages.drop (st.messages.length - maxHistory)
        summaries := rows2 }
    else st
  else st

/-! Telegram Payments pre-checkout (src/bot/handlers/subscription.py
806-816). -/

/-- Python str.startswith over the character sequences of the two
strings. -/
def strStartsWith (s pre : String) : Bool := pre.data.isPrefixOf s.data

/-- The payload test of pre_checkout_handler (subscription.py 810-816):
the charge is accepted exactly when the payload starts with one of the
three recognized prefixes. -/
def pre_checkout_ok (payload : String) : Bool :=
  strStartsWith payload "subscription:" || strStartsWith payload "stars:"
    || strStartsWith payload "renewal:"

/-- Python str.split(colon) over a character sequence: the groups of
characters between the colons, with empty groups kept. -/
def splitColon (cs : List Char) : List (List Char) :=
  match cs with
  | [] => [[]]
  | c :: rest =>
      let r := splitColon rest
      if c = ':' then [] :: r
      else
        match r with
        | [] => [[c]]
        | g :: gs => (c :: g) :: gs

/-- Follows the words of the spec: a payload matches the expected
kind-colon-plan-colon-user shape when splitting on the colon yields
exactly three components whose first is a recognized kind and whose plan
and user components are present. -/
def specExpectedPayloadShape (payload : String) : Bool :=
  match splitColon payload.data with
  | [kind, plan, userPart] =>
      (kind == "subscription".data || kind == "stars".data
          || kind == "renewal".data)
        && !plan.isEmpty && !userPart.isEmpty
  | _ => false

/-! Sample rows used by concrete statements. -/

/-- A pending payment row as create_pending_payment produces one. -/
def mkPendingPayment (id : Nat) (userId : Int) (amountUsd : ℚ)
    (planType : String) (createdAt : Int) : Payment :=
  { id := id
    userId := userId
    amountUsd := amountUsd
    currency := "USDT"
    status := PaymentStatus.awaitingConfirmation
    planType := planType
    txHash := none
    note := none
    createdAt := createdAt
    confirmedAt := none
    confirmedBy := none }

/-! Theorems.  Each claim of the specification is settled by exactly one
theorem below, with a witness theorem where the statement carries
hypotheses. -/

/-- C1: the critical invariant of at most one subscription-creation call
per Payment fails in the code: check_transactions fetches the pending
list once per sweep and _match_payment filters by amount only, so a
payment completed by an earlier matched transfer is matched and
processed again by a later transfer of the same amount within the same
sweep.  Concretely, one pending 20.00 payment against two distinct
20-USDT transfers yields two create_subscription calls, hence two
subscription rows funded by the same payment id. -/
theorem check_transactions_double_processes_payment :
    (((check_transactions ⟨[mkPendingPayment 1 7 20 "monthly" 0], [], []⟩
          [("h1", 20000000), ("h2", 20000000)] 100).subs.filter
        fun s => s.paymentId = some "1").length = 2)
    ∧ ((check_transactions ⟨[mkPendingPayment 1 7 20 "monthly" 0], [], []⟩
          [("h1", 20000000), ("h2", 20000000)] 100).payments.map
        Payment.status = [PaymentStatus.completed]) := by
  decide

/-- C3: cancel_payment never inspects the current status, so a payment
that is already completed is silently transitioned to cancelled with a
success result instead of the error the claim requires.  The concrete
run below cancels a completed payment and gets an ok result. -/
theorem cancel_payment_completed_silently_cancelled :
    cancel_payment
        [{ mkPendingPayment 1 7 20 "monthly" 0 with
            status := PaymentStatus.completed }] 1 99 none =
      Except.ok
        ([{ mkPendingPayment 1 7 20 "monthly" 0 with
            status := PaymentStatus.cancelled, confirmedBy := some 99 }],
          { mkPendingPayment 1 7 20 "monthly" 0 with
            status := PaymentStatus.cancelled, confirmedBy := some 99 })
    ∧ PaymentStatus.completed ≠ PaymentStatus.awaitingConfirmation := by
  exact ⟨rfl, by decide⟩

/-- C5: when the generator fails during the summarization pass the
failure is caught inside summarize_and_clear, but handle_message then
calls trim_old_messages unconditionally: with max_history 20 and 31
stored turns and a failing generator, the history shrinks from 31 to 20
turns while no summary row is saved, so the trimmed turns are lost
instead of being kept for a retry as the claim states. -/
theorem auto_summary_failure_trims_history :
    ((auto_summary_step (fun _ => Except.error "timeout")
        ⟨List.replicate 31 ⟨"user", "hi"⟩, []⟩ 20 0).messages.length = 20)
    ∧ ((auto_summary_step (fun _ => Except.error "timeout")
        ⟨List.replicate 31 ⟨"user", "hi"⟩, []⟩ 20 0).summaries = [])
    ∧ (List.replicate 31 (ChatMsg.mk "user" "hi")).length = 31 := by
  decide

/-- C9: pre_checkout_handler only tests for a recognized prefix, so the
bare payload made of a recognized kind and a colon, with no plan and no
user component, is accepted at pre-checkout even though it does not
match the expected kind-plan-user three-part shape; a well-formed
payload is shown accepted by the shape test for contrast. -/
theorem pre_checkout_accepts_bare_prefix :
    pre_checkout_ok "subscription:" = true
    ∧ specExpectedPayloadShape "subscription:" = false
    ∧ specExpectedPayloadShape "subscription:monthly:7" = true := by
  decide

/-- C8: days_remaining equals the truncated-to-zero count of whole days
until expiry, is 0 whenever is_expired holds, is monotonically
non-increasing as the clock argument advances, and is exactly 0 for
every time strictly after expiry. -/
theorem days_remaining_spec (now now2 expiresAt : Int) :
    days_remaining now expiresAt = (expiresAt - now).toNat / 86400
    ∧ (is_expired now expiresAt = true → days_remaining now expiresAt = 0)
    ∧ (now ≤ now2 → days_remaining now2 expiresAt ≤ days_remaining now expiresAt)
    ∧ (expiresAt < now → days_remaining now expiresAt = 0) := by
  refine ⟨?_, ?_, ?_, ?_⟩
  · by_cases h : expiresAt < now
    · have h0 : (expiresAt - now).toNat = 0 := by omega
      simp [days_remaining, is_expired, h, h0]
    · simp [days_remaining, is_expired, h]
  · intro h
    have h2 : expiresAt < now := by
      simpa [is_expired] using h
    simp [days_remaining, is_expired, h2]
  · intro h
    by_cases h2 : expiresAt < now2
    · simp [days_remaining, is_expired, h2]
    · have h1 : ¬ expiresAt < now := by omega
      have e1 : days_remaining now2 expiresAt = (expiresAt - now2).toNat / 86400 := by
        simp [days_remaining, is_expired, h2]
      have e2 : days_remaining now expiresAt = (expiresAt - now).toNat / 86400 := by
        simp [days_remaining, is_expired, h1]
      rw [e1, e2]
      exact Nat.div_le_div_right (by omega)
  · intro h
    simp [days_remaining, is_expired, h]

/-- C8 witness: the theorem applied at concrete clocks, showing a
subscription one day past expiry has zero days remaining and that an
earlier clock never shows fewer days than a later one. -/
theorem days_remaining_spec_witness :
    days_remaining 100 (100 - 86400) = 0
    ∧ days_remaining 0 90000 ≤ days_remaining (-5) 90000 :=
  ⟨(days_remaining_spec 100 0 (100 - 86400)).2.2.2 (by decide),
   (days_remaining_spec (-5) 0 90000).2.2.1 (by decide)⟩

/-- After the deactivation loop, every row of the user is inactive. -/
theorem deactivate_user_subs_inactive (subs : List Subscription) (uid : Int) :
    ∀ a ∈ deactivate_user_subs subs uid, a.userId = uid → a.isActive = false := by
  intro a ha hu
  rcases List.mem_map.mp ha with ⟨s, _, rfl⟩
  by_cases h : s.userId = uid ∧ s.isActive = true
  · simp [h]
  · rw [if_neg h]
    rw [if_neg h] at hu
    rcases Bool.eq_false_or_eq_true s.isActive with hb | hb
    · exact absurd ⟨hu, hb⟩ h
    · exact hb

/-- After the deactivation loop, no row of the user is still active. -/
theorem filter_deactivate_eq_nil (subs : List Subscription) (uid : Int) :
    (deactivate_user_subs subs uid).filter
      (fun s => s.userId = uid ∧ s.isActive = true) = [] := by
  rw [List.filter_eq_nil_iff]
  intro a ha
  simp only [decide_eq_true_eq, not_and]
  intro hu
  simp [deactivate_user_subs_inactive subs uid a ha hu]

/-- C2: a successful create_subscription deactivates every active row of
the user and appends one fresh row with start now, expiry now plus the
plan duration, active and auto_renew true, reminder flags false and the
payment reference recorded; afterwards exactly that appended (most
recent) row is the single active one for the user, whatever state the
table was in, so any sequence of calls preserves the property.  An
unknown plan identifier yields a validation error and, the function
being pure on its inputs, no row changes. -/
theorem create_subscription_single_active
    (subs : List Subscription) (uid : Int) (planType : String)
    (paymentId : Option String) (now : Int) (plan : Plan)
    (hplan : SUBSCRIPTION_PLANS planType = some plan) :
    (∃ newSub : Subscription,
      create_subscription subs uid planType paymentId now =
        Except.ok (deactivate_user_subs subs uid ++ [newSub], newSub)
      ∧ newSub.userId = uid
      ∧ newSub.startedAt = now
      ∧ newSub.expiresAt = now + plan.durationDays * secondsPerDay
      ∧ newSub.isActive = true
      ∧ newSub.autoRenew = true
      ∧ newSub.reminder3DaysSent = false
      ∧ newSub.reminder1DaySent = false
      ∧ newSub.reminderExpiredSent = false
      ∧ newSub.paymentId = paymentId
      ∧ ((deactivate_user_subs subs uid ++ [newSub]).filter
            fun s => s.userId = uid ∧ s.isActive = true) = [newSub])
    ∧ (∀ q, SUBSCRIPTION_PLANS q = none →
        create_subscription subs uid q paymentId now =
          Except.error ("Unknown plan type: " ++ q)) := by
  constructor
  · refine ⟨{ userId := uid
              planType := planType
              priceUsd := plan.priceUsd
              startedAt := now
              expiresAt := now + plan.durationDays * secondsPerDay
              isActive := true
              paymentId := paymentId
              reminder3DaysSent := false
              reminder1DaySent := false
              reminderExpiredSent := false
              autoRenew := true
              autoRenewInvoiceSent := false
              cancelledAt := none
              cancelReason := none
              createdAt := now }, ?_, rfl, rfl, rfl, rfl, rfl, rfl, rfl, rfl,
        rfl, ?_⟩
    · simp [create_subscription, hplan]
    · rw [List.filter_append, filter_deactivate_eq_nil]
      simp
  · intro q hq
    simp [create_subscription, hq]

/-- A subscription row used by concrete statements: active for user 7,
created in the past. -/
def demoOldSub : Subscription :=
  { userId := 7
    planType := "monthly"
    priceUsd := 20
    startedAt := -100
    expiresAt := 100
    isActive := true
    paymentId := none
    reminder3DaysSent := false
    reminder1DaySent := false
    reminderExpiredSent := false
    autoRenew := true
    autoRenewInvoiceSent := false
    cancelledAt := none
    cancelReason := none
    createdAt := -100 }

/-- C2 witness: the theorem applied to a table that already holds an
active subscription of user 7 with the monthly plan at time 0. -/
theorem create_subscription_single_active_witness :
    ∃ newSub : Subscription,
      ((deactivate_user_subs [demoOldSub] 7 ++ [newSub]).filter
        fun s => s.userId = 7 ∧ s.isActive = true) = [newSub] := by
  obtain ⟨ns, hns⟩ :=
    (create_subscription_single_active [demoOldSub] 7 "monthly" (some "1") 0
      ⟨20, 30⟩ (by rfl)).1
  exact ⟨ns, hns.2.2.2.2.2.2.2.2.2.2⟩

/-- scalar_one_or_none raises on every fetched list of two or more
rows. -/
theorem scalarOneOrNone_error_of_two {α : Type} (l : List α)
    (h : 2 ≤ l.length) :
    scalarOneOrNone l = Except.error "MultipleResultsFound" := by
  match l with
  | [] => simp at h
  | [a] => simp at h
  | a :: b :: rest => rfl

/-- C10: opening a payment only appends a fresh awaiting_confirmation
row and leaves every existing row untouched, so a second selection by
the same user yields two pending rows; once a user holds at least two
awaiting_confirmation rows, the single-pending lookup raises a
multiple-results error instead of returning the most recent row. -/
theorem pending_payments_accumulate
    (db : List Payment) (uid : Int) (planType : String) (plan : Plan)
    (currency : String) (now : Int)
    (hplan : SUBSCRIPTION_PLANS planType = some plan) :
    (∃ newP : Payment,
      create_pending_payment db uid planType currency now =
        Except.ok (db ++ [newP], newP)
      ∧ newP.status = PaymentStatus.awaitingConfirmation
      ∧ newP.userId = uid
      ∧ newP.amountUsd = plan.priceUsd)
    ∧ (∀ db2 : List Payment,
        2 ≤ (db2.filter fun p =>
            p.userId = uid ∧ p.status = PaymentStatus.awaitingConfirmation).length →
        get_user_pending_payment db2 uid =
          Except.error "MultipleResultsFound") := by
  constructor
  · refine ⟨{ id := nextPaymentId db
              userId := uid
              amountUsd := plan.priceUsd
              currency := currency
              status := PaymentStatus.awaitingConfirmation
              planType := planType
              txHash := none
              note := none
              createdAt := now
              confirmedAt := none
              confirmedBy := none }, ?_, rfl, rfl, rfl⟩
    simp [create_pending_payment, hplan]
  · intro db2 h
    unfold get_user_pending_payment
    apply scalarOneOrNone_error_of_two
    rw [List.length_insertionSort]
    exact h

/-- C10 witness: user 7 holds two concrete pending payments; the lookup
used by the confirm and cancel buttons errors out. -/
theorem pending_payments_accumulate_witness :
    get_user_pending_payment
        [mkPendingPayment 1 7 20 "monthly" 0, mkPendingPayment 2 7 20 "monthly" 5] 7 =
      Except.error "MultipleResultsFound" :=
  (pending_payments_accumulate [] 7 "monthly" ⟨20, 30⟩ "USDT" 0 (by rfl)).2
    [mkPendingPayment 1 7 20 "monthly" 0, mkPendingPayment 2 7 20 "monthly" 5]
    (by decide)

/-- The message sequence of the free-tier scenario: four gate passes on
day D starting from a fresh user with limit 3, then one more on day
D + 1, collecting the gate results in order. -/
def simulate_free_days (D : Nat) : List GateResult :=
  let s1 := handle_message_gate false false false ⟨0, none⟩ D 3
  let s2 := handle_message_gate false false false s1.2 D 3
  let s3 := handle_message_gate false false false s2.2 D 3
  let s4 := handle_message_gate false false false s3.2 D 3
  let s5 := handle_message_gate false false false s4.2 (D + 1) 3
  [s1.1, s2.1, s3.1, s4.1, s5.1]

/-- C4: an active subscription, the grace period or the admin identity
bypasses the counter with no increment and no check; a rejected
(exhausted) message leaves the user row unchanged; an accepted free
message increments the daily counter exactly once on top of the
day-reset value; and with limit 3 a fresh user is accepted three times
on day D, rejected the fourth time, and accepted again on day D + 1
after the logical reset. -/
theorem entitlement_counter_spec (u : UserRec) (today freeLimit : Nat)
    (hasSub inGrace adm : Bool) (D : Nat) :
    ((hasSub || inGrace || adm) = true →
      handle_message_gate hasSub inGrace adm u today freeLimit =
        (GateResult.bypass, u))
    ∧ (get_free_messages_remaining u today freeLimit = 0 →
      handle_message_gate false false false u today freeLimit =
        (GateResult.rejected, u))
    ∧ (0 < get_free_messages_remaining u today freeLimit →
      handle_message_gate false false false u today freeLimit =
        (GateResult.accepted, increment_free_messages u today)
      ∧ (increment_free_messages u today).freeMessagesToday =
          (if counterStale u today then 0 else u.freeMessagesToday) + 1)
    ∧ simulate_free_days D =
        [GateResult.accepted, GateResult.accepted, GateResult.accepted,
         GateResult.rejected, GateResult.accepted] := by
  refine ⟨?_, ?_, ?_, ?_⟩
  · intro h
    cases hasSub <;> cases inGrace <;> cases adm <;>
      simp_all [handle_message_gate]
  · intro h
    simp [handle_message_gate, h]
  · intro h
    constructor
    · have h2 : ¬ get_free_messages_remaining u today freeLimit ≤ 0 := by omega
      simp [handle_message_gate, h2]
    · unfold increment_free_messages
      by_cases hc : counterStale u today <;> simp [hc]
  · simp [simulate_free_days, handle_message_gate, get_free_messages_remaining,
      increment_free_messages, counterStale, Nat.lt_irrefl, Nat.lt_succ_self]

/-- C4 witness: the theorem at concrete inputs, showing the bypass of a
subscribed user, a rejection leaving the row unchanged, and a first
accepted message of the day setting the counter to one. -/
theorem entitlement_counter_spec_witness :
    handle_message_gate true false false ⟨2, some 10⟩ 10 3 =
      (GateResult.bypass, ⟨2, some 10⟩)
    ∧ handle_message_gate false false false ⟨3, some 10⟩ 10 3 =
      (GateResult.rejected, ⟨3, some 10⟩)
    ∧ (increment_free_messages ⟨3, some 10⟩ 11).freeMessagesToday = 1 :=
  ⟨(entitlement_counter_spec ⟨2, some 10⟩ 10 3 true false false 0).1 (by decide),
   (entitlement_counter_spec ⟨3, some 10⟩ 10 3 false false false 0).2.1 (by decide),
   by
    have h := ((entitlement_counter_spec ⟨3, some 10⟩ 11 3 false false false 0).2.2.1
      (by decide)).2
    simpa using h⟩

/-- find? over a list sorted oldest-first returns a match that no other
match in the list strictly precedes in creation time. -/
theorem find_sorted_createdAsc {P : Payment → Bool} {p : Payment} :
    ∀ {l : List Payment}, List.Sorted createdAsc l → l.find? P = some p →
      P p = true ∧ p ∈ l ∧ ∀ q ∈ l, P q = true → p.createdAt ≤ q.createdAt := by
  intro l
  induction l with
  | nil => intro _ hf; cases hf
  | cons x xs ih =>
      intro hs hf
      by_cases hx : P x = true
      · rw [List.find?_cons_of_pos _ hx] at hf
        obtain rfl : x = p := by injection hf
        refine ⟨hx, List.mem_cons_self _ _, ?_⟩
        intro q hq _
        rcases List.mem_cons.mp hq with rfl | hq2
        · exact le_refl _
        · exact List.rel_of_sorted_cons hs q hq2
      · rw [List.find?_cons_of_neg _ (by simpa using hx)] at hf
        obtain ⟨h1, h2, h3⟩ := ih hs.of_cons hf
        refine ⟨h1, List.mem_cons_of_mem _ h2, ?_⟩
        intro q hq hPq
        rcases List.mem_cons.mp hq with rfl | hq2
        · exact absurd hPq hx
        · exact h3 q hq2 hPq

/-- C6: a transfer matches a pending payment exactly when it lies in the
one percent tolerance band around the payment amount, the match comes
from the awaiting_confirmation rows of the table, and no other pending
row within tolerance was created earlier than the returned one (first
match over the oldest-first order).  Concretely, a 19.90 transfer
matches a pending 20.00 payment and a 19.00 transfer matches none. -/
theorem match_payment_first_oldest
    (db : List Payment) (amountUsd : ℚ) (p : Payment)
    (hfind : match_payment (get_pending_payments db) amountUsd = some p) :
    (p.amountUsd * (1 - 1/100) ≤ amountUsd
      ∧ amountUsd ≤ p.amountUsd * (1 + 1/100))
    ∧ p ∈ db ∧ p.status = PaymentStatus.awaitingConfirmation
    ∧ (∀ q ∈ db, q.status = PaymentStatus.awaitingConfirmation →
        q.amountUsd * (1 - 1/100) ≤ amountUsd →
        amountUsd ≤ q.amountUsd * (1 + 1/100) →
        p.createdAt ≤ q.createdAt)
    ∧ match_payment [mkPendingPayment 1 7 20 "monthly" 0] (mkRat 199 10) =
        some (mkPendingPayment 1 7 20 "monthly" 0)
    ∧ match_payment [mkPendingPayment 1 7 20 "monthly" 0] 19 = none := by
  have hsorted : List.Sorted createdAsc (get_pending_payments db) :=
    List.sorted_insertionSort createdAsc _
  obtain ⟨hP, hmem, hall⟩ := find_sorted_createdAsc hsorted hfind
  have hmem2 : p ∈ db ∧ p.status = PaymentStatus.awaitingConfirmation := by
    have := (List.mem_insertionSort createdAsc).mp hmem
    simpa using List.mem_filter.mp this
  have htol : p.amountUsd * (1 - 1/100) ≤ amountUsd
      ∧ amountUsd ≤ p.amountUsd * (1 + 1/100) := by
    simpa using hP
  refine ⟨htol, hmem2.1, hmem2.2, ?_, by decide, by decide⟩
  intro q hq hqs hq1 hq2
  have hqmem : q ∈ get_pending_payments db := by
    apply (List.mem_insertionSort createdAsc).mpr
    exact List.mem_filter.mpr ⟨hq, by simpa using hqs⟩
  exact hall q hqmem (by simpa using ⟨hq1, hq2⟩)

/-- C6 witness: the theorem applied to a one-row table with a pending
20.00 payment and a 19.90 transfer, recovering the tolerance bounds. -/
theorem match_payment_first_oldest_witness :
    (mkPendingPayment 1 7 20 "monthly" 0).amountUsd * (1 - 1/100) ≤ mkRat 199 10
    ∧ mkRat 199 10 ≤ (mkPendingPayment 1 7 20 "monthly" 0).amountUsd * (1 + 1/100) :=
  (match_payment_first_oldest [mkPendingPayment 1 7 20 "monthly" 0]
    (mkRat 199 10) (mkPendingPayment 1 7 20 "monthly" 0) (by decide)).1

/-- C7: with grace_days 3, an active subscription row that expired one
day ago is no longer an active subscription but is inside the grace
window, while one that expired four days ago is neither, so the
handle_message gate falls through to the free-tier counter for it. -/
theorem grace_period_eval (s : Subscription) (uid now : Int)
    (huser : s.userId = uid) (hactive : s.isActive = true) :
    (s.expiresAt = now - secondsPerDay →
      has_active_subscription [s] uid now = Except.ok false
      ∧ is_in_grace_period [s] uid now 3 = Except.ok true)
    ∧ (s.expiresAt = now - 4 * secondsPerDay →
      has_active_subscription [s] uid now = Except.ok false
      ∧ is_in_grace_period [s] uid now 3 = Except.ok false) := by
  have hsec : secondsPerDay = 86400 := rfl
  constructor
  · intro hexp
    constructor
    · have h1 : ¬ now < s.expiresAt := by omega
      simp [has_active_subscription, get_active_subscription, scalarOneOrNone,
        List.filter, List.insertionSort, Except.map, h1]
    · have h2 : s.expiresAt ≤ now := by omega
      have h3 : now - (3 : Int) * secondsPerDay < s.expiresAt := by
        rw [hsec] at hexp ⊢
        omega
      simp [is_in_grace_period, scalarOneOrNone, List.filter, Except.map,
        huser, hactive, h2, h3]
  · intro hexp
    constructor
    · have h1 : ¬ now < s.expiresAt := by omega
      simp [has_active_subscription, get_active_subscription, scalarOneOrNone,
        List.filter, List.insertionSort, Except.map, h1]
    · have h3 : ¬ now - (3 : Int) * secondsPerDay < s.expiresAt := by
        rw [hsec] at hexp ⊢
        omega
      simp [is_in_grace_period, scalarOneOrNone, List.filter, Except.map, h3]

/-- A concrete active subscription of user 7 whose expiry sits the given
number of seconds before time zero. -/
def expiredSubAt (expiresAt : Int) : Subscription :=
  { demoOldSub with startedAt := expiresAt - 100, expiresAt := expiresAt }

/-- C7 witness: the theorem at time 0 for expiries one day and four days
in the past. -/
theorem grace_period_eval_witness :
    (has_active_subscription [expiredSubAt (-86400)] 7 0 = Except.ok false
      ∧ is_in_grace_period [expiredSubAt (-86400)] 7 0 3 = Except.ok true)
    ∧ (has_active_subscription [expiredSubAt (-345600)] 7 0 = Except.ok false
      ∧ is_in_grace_period [expiredSubAt (-345600)] 7 0 3 = Except.ok false) :=
  ⟨(grace_period_eval (expiredSubAt (-86400)) 7 0 (by decide) (by decide)).1
      (by decide),
   (grace_period_eval (expiredSubAt (-345600)) 7 0 (by decide) (by decide)).2
      (by decide)⟩

end Psy
